import Mathlib

/- Verification of the pulsar connection-pooled HTTP client engine:
   a shallow embedding of pulsar/async/clients.py,
   pulsar/apps/http/__init__.py and examples/proxyserver/manage.py. -/

/-- Socket state of one pooled connection: whether connection.sock is an
actual socket object (not None) and whether the OS reports it closed. -/
structure ConnInfo where
  hasSock : Bool
  sockClosed : Bool
deriving DecidableEq

/-- pulsar.utils.internet.is_socket_closed: a missing socket counts as
closed (the function returns True for a falsy sock argument). -/
def is_socket_closed (c : ConnInfo) : Bool := !c.hasSock || c.sockClosed

/-- Python set.add on a duplicate-free list model of a set. -/
def setAdd (x : Nat) (l : List Nat) : List Nat := if x ∈ l then l else x :: l

/-- Python set.discard: removes every occurrence of the element. -/
def setDiscard (x : Nat) (l : List Nat) : List Nat := l.filter (fun y => y ≠ x)

/-- The two connection sets owned by a ConnectionPool: the idle, reusable
connections (available) and the in-use ones (concurrent). Connections are
identified by numeric ids; the available list records the order in which
the Python set pop would yield its elements. -/
structure PoolState where
  available : List Nat
  concurrent : List Nat
deriving DecidableEq

/-- The pool exclusivity invariant: no connection is a member of both the
available set and the concurrent set. -/
def PoolState.disjointSets (s : PoolState) : Prop :=
  ∀ c ∈ s.available, c ∉ s.concurrent

instance (s : PoolState) : Decidable s.disjointSets := by
  unfold PoolState.disjointSets; infer_instance

/-- A parsed HTTP response as seen by can_reuse_connection: whether the
parser has completed the headers, and the header list itself. -/
structure HttpResponseM where
  headersComplete : Bool
  headerList : List (String × String)
deriving DecidableEq

/-- HttpResponse.headers property: None until the parser has the complete
header set, afterwards the parsed headers. -/
def HttpResponseM.headersOpt (r : HttpResponseM) :
    Option (List (String × String)) :=
  if r.headersComplete then some r.headerList else none

/-- ASCII lowercase of a character, the case folding Python applies to
header names. -/
def lowerChar (c : Char) : Char :=
  if 65 ≤ c.toNat && c.toNat ≤ 90 then Char.ofNat (c.toNat + 32) else c

/-- ASCII lowercase of a string. -/
def lowerStr (s : String) : String := ⟨s.data.map lowerChar⟩

/-- Modelled from the spec: Headers.has of pulsar.utils.httpurl (not under
src/) tests whether the header container carries the given header name with
the given value; header names and values compare case-insensitively (the
spec phrases the default reuse policy as: the response carried a
Connection: keep-alive header). -/
def headersHas (hs : List (String × String)) (name value : String) : Bool :=
  hs.any (fun p =>
    lowerStr p.1 = lowerStr name && lowerStr p.2 = lowerStr value)

/-- HttpClient.can_reuse_connection: reuse only when a response is given,
its headers are available and non-empty (Python truthiness of the Headers
container), and they carry Connection: keep-alive. -/
def can_reuse_connection (response : Option HttpResponseM) : Bool :=
  match response with
  | some r =>
    match r.headersOpt with
    | some hs => !hs.isEmpty && headersHas hs "connection" "keep-alive"
    | none => false
  | none => false

/-- ConnectionPool.release_connection: under the pool lock, discard the
connection from the concurrent set, and add it back to the available set
only when the producer reuse policy allows it. -/
def ConnectionPool.release_connection (s : PoolState) (conn : Nat)
    (response : Option HttpResponseM) : PoolState :=
  let conc := setDiscard conn s.concurrent
  if can_reuse_connection response then
    { available := setAdd conn s.available, concurrent := conc }
  else
    { available := s.available, concurrent := conc }

/-- The while-closed pop loop inside get_or_create_connection: pop from the
available set until a connection whose socket is not closed is found.
Returns the healthy connection (if any), the remaining available list, and
the popped stale connections whose transports are closed outside the lock
(a popped connection with no sock object is discarded without a transport
close, mirroring the condition closed and sock). -/
def popAvailable (env : Nat → ConnInfo) :
    List Nat → Option Nat × List Nat × List Nat
  | [] => (none, [], [])
  | c :: rest =>
    if is_socket_closed (env c) then
      let r := popAvailable env rest
      (r.1, r.2.1, (if (env c).hasSock then [c] else []) ++ r.2.2)
    else (some c, rest, [])

/-- Modelled from the spec: ConnectionProducer.new_connection
(pulsar/async/protocols.py, not under src/) builds a brand-new connection
and registers it in the concurrent set, so that every returned connection
is inserted into the concurrent set before being handed back. -/
def ConnectionProducer.new_connection (fresh : Nat) (s : PoolState) :
    PoolState :=
  { s with concurrent := setAdd fresh s.concurrent }

/-- Result of ConnectionPool.get_or_create_connection: the updated pool,
the returned connection, whether it was newly built, the stale connections
whose transports were closed after the lock was released, and whether the
connection_lost observer was bound on a newly built connection. -/
structure AcquireResult where
  pool : PoolState
  conn : Nat
  isNew : Bool
  staleClosed : List Nat
  lostObserverBound : Bool
deriving DecidableEq

/-- ConnectionPool.get_or_create_connection: pop available connections
until a healthy one is found, adding it to the concurrent set; stale popped
connections get their transport closed outside the lock; if none is left, a
new connection is built (registered concurrent by new_connection) with the
connection_lost observer bound. The fresh argument is the id of the
connection the factory would build. -/
def ConnectionPool.get_or_create_connection (env : Nat → ConnInfo)
    (fresh : Nat) (s : PoolState) : AcquireResult :=
  match popAvailable env s.available with
  | (some c, rest, stales) =>
    { pool := { available := rest, concurrent := setAdd c s.concurrent },
      conn := c, isNew := false, staleClosed := stales,
      lostObserverBound := false }
  | (none, _, stales) =>
    { pool := ConnectionProducer.new_connection fresh
        { available := [], concurrent := s.concurrent },
      conn := fresh, isNew := true, staleClosed := stales,
      lostObserverBound := true }

/-- Modelled from the spec: ConnectionProducer._remove_connection
(pulsar/async/protocols.py, not under src/) removes the connection from
the concurrent set (closing a connection must remove it from both internal
sets). -/
def ConnectionProducer.removeConnection (conn : Nat) (s : PoolState) :
    PoolState :=
  { s with concurrent := setDiscard conn s.concurrent }

/-- ConnectionPool._remove_connection: under the pool lock, the super call
removes the connection from the concurrent set and the override also
discards it from the available set. -/
def ConnectionPool.removeConnection (s : PoolState) (conn : Nat) :
    PoolState :=
  let s1 := ConnectionProducer.removeConnection conn s
  { s1 with available := setDiscard conn s1.available }

/-- Python exception kinds arising in the embedded code paths. -/
inductive PyExc where
  | typeError
  | nameError
  | protocolError
  | socketTimeout
  | socketError
deriving DecidableEq

instance {ε α : Type} [DecidableEq ε] [DecidableEq α] :
    DecidableEq (Except ε α) := fun x y =>
  match x, y with
  | .ok a, .ok b =>
    if h : a = b then isTrue (by rw [h])
    else isFalse (fun hh => h (Except.ok.inj hh))
  | .error a, .error b =>
    if h : a = b then isTrue (by rw [h])
    else isFalse (fun hh => h (Except.error.inj hh))
  | .ok _, .error _ => isFalse (fun hh => Except.noConfusion hh)
  | .error _, .ok _ => isFalse (fun hh => Except.noConfusion hh)

/-- is_failure(exc, socket.timeout, socket.error): the guard of
ConnectionPool._try_reconnect only passes for socket timeouts and socket
errors. -/
def is_failure_socket (exc : PyExc) : Bool :=
  match exc with
  | .socketTimeout => true
  | .socketError => true
  | _ => false

/-- A Python value as needed to evaluate the body of
Client.reconnect_time_lag: either a number or a bound method. -/
inductive PyVal where
  | num (q : ℚ)
  | boundMethod (name : String)
deriving DecidableEq

/-- Numeric attributes defined on the Client class (clients.py lines
253 and 267): max_reconnect defaults to 1 and reconnecting_gap to 2. -/
def clientNumericAttrs : List (String × ℚ) :=
  [("max_reconnect", 1), ("reconnecting_gap", 2)]

/-- Attribute lookup on a Client instance: the numeric class attributes
resolve to numbers, every other looked-up name (in particular
reconnect_time_lag itself, a method of the class) resolves to a bound
method. -/
def Client.attr (name : String) : PyVal :=
  match clientNumericAttrs.find? (fun p => p.1 = name) with
  | some p => .num p.2
  | none => .boundMethod name

/-- Python multiplication of an attribute value by a number: multiplying a
bound method by a number raises TypeError. -/
def pyMul (a : PyVal) (b : ℚ) : Except PyExc ℚ :=
  match a with
  | .num q => .ok (q * b)
  | .boundMethod _ => .error .typeError

/-- Python round(x, 1) on a rational. -/
def pyRound1 (q : ℚ) : ℚ := ((round (q * 10) : ℤ) : ℚ) / 10

/-- Client.reconnect_time_lag as written at clients.py line 473: it
evaluates self.reconnect_time_lag * (math.log(lag) + 1) where the
attribute self.reconnect_time_lag is the bound method being executed, not
a number. The already-evaluated argument math.log(lag) + 1 is passed in as
a rational. -/
def Client.reconnect_time_lag (logLagPlusOne : ℚ) : Except PyExc ℚ := do
  let v ← pyMul (Client.attr "reconnect_time_lag") logLagPlusOne
  return pyRound1 v

/-- Names bound at module level in pulsar/async/clients.py (imports and
top-level declarations). -/
def clientsModuleGlobals : List String :=
  ["socket", "sys", "math", "partial", "reduce", "Lock", "ProtocolError",
   "get_event_loop", "new_event_loop", "itervalues", "range",
   "is_socket_closed", "is_failure", "multi_async", "EventHandler",
   "Producer", "ConnectionProducer", "release_connection", "Request",
   "ConnectionPool", "release_response_connection", "Client", "__all__",
   "__name__"]

/-- Local names bound in ConnectionPool._try_reconnect before line 147 is
executed: only the two parameters self and exc. -/
def tryReconnectLocals : List String := ["self", "exc"]

/-- Python name resolution inside a function body: a name is looked up in
the local scope, then in the module globals; an unbound name raises
NameError. -/
def resolveName (locals : List String) (n : String) : Except PyExc Unit :=
  if n ∈ locals ∨ n ∈ clientsModuleGlobals then .ok () else .error .nameError

/-- ConnectionPool._try_reconnect (clients.py lines 143 to 167): when the
connection_lost failure is a socket timeout or socket error, line 147
evaluates connection.current_consumer, but the name connection is bound
neither locally nor at module level, so the handler raises NameError
before any reconnect logic can run; for any other failure kind the guard
fails and the handler returns None. -/
def ConnectionPool.tryReconnect (exc : PyExc) : Except PyExc Unit := do
  if is_failure_socket exc then
    let _ ← resolveName tryReconnectLocals "connection"
    return ()
  else
    return ()

/-- HttpResponse.data_received (http/__init__.py lines 571 to 577): feed
the chunk to the parser; when the parser consumes the whole chunk, fire
on_headers once the headers are complete and the event has not fired yet
(the returned flag); otherwise raise ProtocolError. The parser is the
external collaborator, represented by the number of bytes it consumed. -/
def HttpResponse.data_received (consumed chunkLen : Nat)
    (headersComplete onHeadersDone : Bool) : Except PyExc Bool :=
  if consumed = chunkLen then .ok (headersComplete && !onHeadersDone)
  else .error .protocolError

/-- The body payload of an HttpRequest: raw bytes, a string, or structured
data (a dictionary, modelled as a key-value list; the empty list models the
empty dictionary the constructor defaults to). Byte strings are modelled as
Lean strings. -/
inductive BodyData where
  | bytes (b : String)
  | str (s : String)
  | form (kv : List (String × String))
deriving DecidableEq

/-- Modelled from the spec: ENCODE_URL_METHODS of pulsar.utils.httpurl (not
under src/), the query-encodable GET-like methods which fold the body into
the query string. -/
def ENCODE_URL_METHODS : List String := ["DELETE", "GET", "HEAD", "OPTIONS"]

/-- Case-insensitive header lookup, returning the value of the first
matching header. -/
def headerGet (hs : List (String × String)) (k : String) : Option String :=
  (hs.find? (fun p => lowerStr p.1 = lowerStr k)).map (fun p => p.2)

/-- Headers item assignment: drop every entry with the same
case-insensitive name and append the new pair. -/
def setHeader (hs : List (String × String)) (k v : String) :
    List (String × String) :=
  hs.filter (fun p => lowerStr p.1 ≠ lowerStr k) ++ [(k, v)]

/-- Headers.update: assign every pair of the update list in order. -/
def updateHeaders (base upd : List (String × String)) :
    List (String × String) :=
  upd.foldl (fun acc p => setHeader acc p.1 p.2) base

/-- Modelled from the spec: urlencode of form data (the exact percent
escaping is irrelevant to the claims, only that it is a deterministic
string of the pairs). -/
def urlencode (kv : List (String × String)) : String :=
  String.intercalate "&" (kv.map (fun p => p.1 ++ "=" ++ p.2))

/-- Modelled from the spec: parse_qsl, splitting a query string into
key-value pairs. -/
def parse_qsl (s : String) : List (String × String) :=
  (s.splitOn "&").filterMap (fun part =>
    match part.splitOn "=" with
    | [k, v] => some (k, v)
    | _ => none)

/-- Modelled from the spec: multipart/form-data encoding of structured data
with the given boundary. -/
def encode_multipart_formdata (boundary : String)
    (kv : List (String × String)) : String :=
  String.intercalate ""
    (kv.map (fun p =>
      "--" ++ boundary ++ "\r\nContent-Disposition: form-data; name=\"" ++
      p.1 ++ "\"\r\n\r\n" ++ p.2 ++ "\r\n")) ++ "--" ++ boundary ++ "--\r\n"

/-- Modelled from the spec: json.dumps of structured data. -/
def jsonDumps (kv : List (String × String)) : String :=
  "\x7b" ++ String.intercalate ", "
    (kv.map (fun p => "\"" ++ p.1 ++ "\": \"" ++ p.2 ++ "\"")) ++ "\x7d"

/-- The fields of an HttpRequest that its encode method reads or writes.
The query string is modelled in parsed form (the list of pairs it parses
to); the request is modelled in the non-proxied form, where the request
line carries only path and query. -/
structure HttpRequestM where
  method : String
  path : String
  query : List (String × String)
  version : String
  data : BodyData
  headers : List (String × String)
  unredirected_headers : List (String × String)
  wait_continue : Bool
  encode_multipart : Bool
  multipart_boundary : String
deriving DecidableEq

/-- HttpRequest._encode_url: fold a truthy body payload into the query
string and store the merged pair list back into data; a falsy payload
leaves the query unchanged. -/
def HttpRequestM.encodeUrl (r : HttpRequestM) : HttpRequestM :=
  let pairs :=
    match r.data with
    | .form kv => kv
    | .str s => if s = "" then [] else parse_qsl s
    | .bytes b => if b = "" then [] else parse_qsl b
  if pairs = [] then r
  else { r with query := r.query ++ pairs, data := .form (r.query ++ pairs) }

/-- HttpRequest.encode_body (http/__init__.py lines 372 to 401): for
query-encodable methods the payload is folded into the url and no body is
produced; raw bytes pass through; strings are charset encoded; a truthy
dictionary is multipart or form-url encoded when no content type is given
(setting the Content-Type header), and json serialised otherwise. Returns
the body and the updated request state. -/
def HttpRequestM.encode_body (r : HttpRequestM) :
    Option String × HttpRequestM :=
  if r.method ∈ ENCODE_URL_METHODS then
    (none, r.encodeUrl)
  else
    match r.data with
    | .bytes b => (some b, r)
    | .str s => (some s, r)
    | .form kv =>
      if kv = [] then (none, r)
      else
        match headerGet r.headers "content-type" with
        | none =>
          if r.encode_multipart then
            let ct := "multipart/form-data; boundary=" ++ r.multipart_boundary
            let hs := setHeader r.headers "Content-Type" ct
            (some (encode_multipart_formdata r.multipart_boundary kv),
             { r with headers := hs })
          else
            let hs := setHeader r.headers "Content-Type"
              "application/x-www-form-urlencoded"
            (some (urlencode kv), { r with headers := hs })
        | some _ => (some (jsonDumps kv), r)

/-- HttpRequest.first_line for a non-proxied request: method, path or
slash with the query string, and the HTTP version. -/
def HttpRequestM.first_line (r : HttpRequestM) : String :=
  r.method ++ " " ++ (if r.path = "" then "/" else r.path) ++
    (if r.query = [] then "" else "?" ++ urlencode r.query) ++
    " " ++ r.version

/-- Serialisation of a header list as it appears on the wire. -/
def headersBytes (hs : List (String × String)) : String :=
  String.intercalate "" (hs.map (fun p => p.1 ++ ": " ++ p.2 ++ "\r\n")) ++
    "\r\n"

/-- Result of HttpRequest.encode: the wire bytes, the request line used,
the final header set of the encoded request, and the body bytes actually
appended to the wire. -/
structure EncodeResult where
  wire : String
  requestLine : String
  finalHeaders : List (String × String)
  bodySent : Option String
deriving DecidableEq

/-- HttpRequest.encode (http/__init__.py lines 347 to 370): CONNECT
requests encode to the empty byte string; otherwise the body is computed
first (it may change the query string), then the request line; a truthy
body adds a Content-Length header with the body length (and under
wait_continue an Expect header, withholding the body); finally, when the
unredirected header set is non-empty, the wire headers are its copy
updated with the ordinary headers. -/
def HttpRequestM.encode (r : HttpRequestM) : EncodeResult :=
  if r.method = "CONNECT" then
    { wire := "", requestLine := "", finalHeaders := r.headers,
      bodySent := none }
  else
    let bodyState := r.encode_body
    let r1 := bodyState.2
    let fl := r1.first_line
    match bodyState.1 with
    | some b =>
      if b ≠ "" then
        let hs := setHeader r1.headers "content-length" (toString b.length)
        let step :=
          if r1.wait_continue then
            (setHeader hs "expect" "100-continue", (none : Option String))
          else (hs, some b)
        let fin :=
          if r1.unredirected_headers = [] then step.1
          else updateHeaders r1.unredirected_headers step.1
        { wire := fl ++ "\r\n" ++ headersBytes fin ++
            (match step.2 with | some bb => bb | none => ""),
          requestLine := fl, finalHeaders := fin, bodySent := step.2 }
      else
        let fin :=
          if r1.unredirected_headers = [] then r1.headers
          else updateHeaders r1.unredirected_headers r1.headers
        { wire := fl ++ "\r\n" ++ headersBytes fin,
          requestLine := fl, finalHeaders := fin, bodySent := none }
    | none =>
      let fin :=
        if r1.unredirected_headers = [] then r1.headers
        else updateHeaders r1.unredirected_headers r1.headers
      { wire := fl ++ "\r\n" ++ headersBytes fin,
        requestLine := fl, finalHeaders := fin, bodySent := none }

/-- The mutable state of a Client: the _closed flag, the mapping from
endpoint key to connection pool, how many times close_connections was
invoked on the pools, how many times the finish event was scheduled to
fire, and the identity of the one-time finish deferred (unchanged for the
lifetime of the client). -/
structure ClientState where
  closed : Bool
  pools : List (Nat × PoolState)
  poolsCloseCalls : Nat
  finishFires : Nat
  finishEventId : Nat
deriving DecidableEq

/-- Lookup of the connection pool registered for an endpoint key. -/
def lookupPool (ps : List (Nat × PoolState)) (k : Nat) : Option PoolState :=
  (ps.find? (fun p => p.1 = k)).map (fun p => p.2)

/-- Store a pool under an endpoint key, replacing any previous entry. -/
def setPool (ps : List (Nat × PoolState)) (k : Nat) (v : PoolState) :
    List (Nat × PoolState) :=
  ps.filter (fun p => p.1 ≠ k) ++ [(k, v)]

/-- Client.close (clients.py lines 454 to 465): when not yet closed, set
_closed, ask every pool to close its connections and chain the finish
event to fire; in every case return the finish one-time event. -/
def Client.close (s : ClientState) : ClientState × Nat :=
  if !s.closed then
    ({ s with closed := true,
              poolsCloseCalls := s.poolsCloseCalls + 1,
              finishFires := s.finishFires + 1 },
     s.finishEventId)
  else (s, s.finishEventId)

/-- Client.get_connection: under the client lock, find or lazily create
the pool for the request key, then delegate to
get_or_create_connection. -/
def Client.get_connection (env : Nat → ConnInfo) (fresh key : Nat)
    (s : ClientState) : ClientState × AcquireResult :=
  let pool :=
    match lookupPool s.pools key with
    | some p => p
    | none => { available := [], concurrent := [] }
  let r := ConnectionPool.get_or_create_connection env fresh pool
  ({ s with pools := setPool s.pools key r.pool }, r)

/-- Client.response together with Client._response (clients.py lines 373
to 401 and 511 to 528): builds the consumer and schedules _response on the
event loop, which acquires a connection and starts the request; neither
method consults the _closed flag, so the dispatch happens unconditionally.
The returned flag records whether a request was dispatched towards the
remote server. -/
def Client.response (env : Nat → ConnInfo) (fresh key : Nat)
    (s : ClientState) : ClientState × Bool :=
  let acquired := Client.get_connection env fresh key s
  (acquired.1, true)

/-- Downstream-facing state of a ProxyResponse or ProxyTunnel: the status
passed to start_response (if called), the body chunks queued for the
downstream caller, the done flag ending the response iteration, and which
callbacks setup registered. -/
structure ProxyState where
  startedStatus : Option String
  queue : List String
  done : Bool
  errbackBound : Bool
  dataProcessedBound : Bool
  connectionMadeBound : Bool
  downstreamUpgraded : Bool
deriving DecidableEq

/-- State of a proxy response object right after construction, before
setup runs. -/
def initialProxyState : ProxyState :=
  { startedStatus := none, queue := [], done := false,
    errbackBound := false, dataProcessedBound := false,
    connectionMadeBound := false, downstreamUpgraded := false }

/-- ProxyResponse.setup (manage.py lines 132 to 134): bind the
data_processed callback and add the error errback on on_finished. -/
def ProxyResponse.setup (s : ProxyState) : ProxyState :=
  { s with dataProcessedBound := true, errbackBound := true }

/-- ProxyTunnel.setup (manage.py lines 175 to 179): upgrade the downstream
connection and bind connection_made on the upstream connection; it does
not bind the error errback of ProxyResponse.setup. -/
def ProxyTunnel.setup (s : ProxyState) : ProxyState :=
  { s with downstreamUpgraded := true, connectionMadeBound := true }

/-- The error page rendered by ProxyResponse.error. -/
def errorPage (uri : String) : String :=
  "<h1>Oops! Could not find " ++ uri ++ "</h1>"

/-- ProxyResponse.error (manage.py lines 154 to 165): start the response
with a 504 status, mark the iteration done and queue the error page for
the downstream caller. -/
def ProxyResponse.error (uri : String) (s : ProxyState) : ProxyState :=
  { s with startedStatus := some "504 Gateway Timeout", done := true,
           queue := s.queue ++ [errorPage uri] }

/-- Effect on the downstream state when the upstream connect attempt fails
before the tunnel is established: on_finished fails, and the error handler
runs only if setup registered it as an errback. -/
def upstreamConnectFailed (uri : String) (s : ProxyState) : ProxyState :=
  if s.errbackBound then ProxyResponse.error uri s else s

/-- The observable outcome the claim requires of a failed tunnel: the
downstream caller got a completed gateway-failure response. -/
def receivedGatewayFailure (s : ProxyState) : Prop :=
  s.done = true ∧ s.startedStatus = some "504 Gateway Timeout" ∧
    s.queue ≠ []

instance (s : ProxyState) : Decidable (receivedGatewayFailure s) := by
  unfold receivedGatewayFailure; infer_instance

/-- Value of the last header entry with the given case-insensitive name,
used to characterise Headers.update. -/
def lastHeaderVal : List (String × String) → String → Option String
  | [], _ => none
  | p :: rest, k =>
    match lastHeaderVal rest k with
    | some v => some v
    | none => if lowerStr p.1 = lowerStr k then some p.2 else none

/-- A concrete POST request used to exercise the encode path on explicit
input. -/
def witnessRequest : HttpRequestM :=
  { method := "POST", path := "/a", query := [], version := "HTTP/1.1",
    data := .bytes "hello", headers := [("Host", "x")],
    unredirected_headers := [], wait_continue := false,
    encode_multipart := true, multipart_boundary := "bd" }

theorem mem_setAdd {x y : Nat} {l : List Nat} :
    x ∈ setAdd y l ↔ x = y ∨ x ∈ l := by
  unfold setAdd
  by_cases h : y ∈ l
  · simp only [if_pos h]
    constructor
    · exact Or.inr
    · rintro (rfl | hx)
      · exact h
      · exact hx
  · simp [if_neg h]

theorem mem_setDiscard {x y : Nat} {l : List Nat} :
    x ∈ setDiscard y l ↔ x ∈ l ∧ x ≠ y := by
  simp [setDiscard]

theorem self_mem_setAdd (x : Nat) (l : List Nat) : x ∈ setAdd x l :=
  mem_setAdd.mpr (Or.inl rfl)

theorem not_mem_setDiscard (x : Nat) (l : List Nat) :
    x ∉ setDiscard x l := by
  intro h
  exact (mem_setDiscard.mp h).2 rfl

theorem popAvailable_eq (env : Nat → ConnInfo) (l : List Nat) :
    popAvailable env l =
      ((l.dropWhile (fun c => is_socket_closed (env c))).head?,
       (l.dropWhile (fun c => is_socket_closed (env c))).tail,
       (l.takeWhile (fun c => is_socket_closed (env c))).filter
         (fun c => (env c).hasSock)) := by
  induction l with
  | nil => simp [popAvailable]
  | cons c rest ih =>
    by_cases h : is_socket_closed (env c) = true
    · by_cases hs : (env c).hasSock = true <;>
        simp [popAvailable, h, hs, List.dropWhile_cons, List.takeWhile_cons,
          List.filter_cons, ih]
    · simp only [Bool.not_eq_true] at h
      simp [popAvailable, h, List.dropWhile_cons, List.takeWhile_cons,
        List.filter_cons]

theorem head_dropWhile_false (p : Nat → Bool) (l : List Nat) (x : Nat)
    (h : (l.dropWhile p).head? = some x) : p x = false := by
  induction l with
  | nil => simp [List.dropWhile] at h
  | cons a t ih =>
    rw [List.dropWhile_cons] at h
    split at h
    · exact ih h
    · simp only [List.head?_cons, Option.some.injEq] at h
      subst h
      rename_i hpa
      exact Bool.not_eq_true _ ▸ (by simpa using hpa)

/-- Claim C1: for every ConnectionPool, the available and concurrent sets
stay disjoint: starting from a pool satisfying the exclusivity invariant
(with a duplicate-free available set), each of release_connection,
get_or_create_connection and _remove_connection yields a pool whose
available and concurrent sets are disjoint. -/
theorem pool_sets_disjoint_after_ops (env : Nat → ConnInfo)
    (fresh conn : Nat) (s : PoolState) (resp : Option HttpResponseM)
    (hd : s.disjointSets) (hnd : s.available.Nodup) :
    (ConnectionPool.release_connection s conn resp).disjointSets ∧
    (ConnectionPool.get_or_create_connection env fresh s).pool.disjointSets ∧
    (ConnectionPool.removeConnection s conn).disjointSets := by
  refine ⟨?_, ?_, ?_⟩
  · intro x hx
    unfold ConnectionPool.release_connection at hx ⊢
    by_cases h : can_reuse_connection resp = true
    · rw [if_pos h] at hx ⊢
      intro hmem
      rcases mem_setDiscard.mp hmem with ⟨hxc, hxne⟩
      rcases mem_setAdd.mp hx with rfl | hxa
      · exact hxne rfl
      · exact hd x hxa hxc
    · rw [if_neg h] at hx ⊢
      intro hmem
      rcases mem_setDiscard.mp hmem with ⟨hxc, _⟩
      exact hd x hx hxc
  · unfold ConnectionPool.get_or_create_connection
    rw [popAvailable_eq]
    cases hdw : s.available.dropWhile (fun c => is_socket_closed (env c)) with
    | nil =>
      intro x hx
      simp [ConnectionProducer.new_connection] at hx
    | cons h t =>
      intro x hx
      simp only [List.head?_cons, List.tail_cons] at hx
      have hxa : x ∈ s.available :=
        (List.dropWhile_sublist _).mem (hdw ▸ List.mem_cons_of_mem h hx)
      have hnd2 : (h :: t).Nodup :=
        hdw ▸ ((List.dropWhile_sublist _).nodup hnd)
      have hne : x ≠ h := fun he =>
        (List.nodup_cons.mp hnd2).1 (he ▸ hx)
      intro hmem
      rcases mem_setAdd.mp hmem with rfl | hxc
      · exact hne rfl
      · exact hd x hxa hxc
  · intro x hx
    unfold ConnectionPool.removeConnection
      ConnectionProducer.removeConnection at hx ⊢
    intro hmem
    rcases mem_setDiscard.mp hmem with ⟨hxc, _⟩
    rcases mem_setDiscard.mp hx with ⟨hxa, _⟩
    exact hd x hxa hxc

theorem pool_sets_disjoint_after_ops_witness :
    PoolState.disjointSets ⟨[1], [2]⟩ ∧ List.Nodup [1] ∧
    ((ConnectionPool.release_connection ⟨[1], [2]⟩ 2 none).disjointSets ∧
     (ConnectionPool.get_or_create_connection (fun _ => ⟨true, false⟩) 3
        ⟨[1], [2]⟩).pool.disjointSets ∧
     (ConnectionPool.removeConnection ⟨[1], [2]⟩ 2).disjointSets) :=
  ⟨by decide, by decide,
   pool_sets_disjoint_after_ops (fun _ => ⟨true, false⟩) 3 2 ⟨[1], [2]⟩ none
     (by decide) (by decide)⟩

/-- Claim C2: release_connection always removes the connection from the
concurrent set, and re-admits it to the available set exactly when the
reuse policy holds; under the default HttpClient policy that is exactly
when the released response exists, its headers are complete, and they
contain a Connection header whose value is keep-alive (so a release after
Connection close, after a response without a Connection header, or with no
response at all, does not re-admit the connection). -/
theorem release_connection_reuse_policy (s : PoolState) (conn : Nat)
    (resp : Option HttpResponseM) (hconn : conn ∉ s.available) :
    conn ∉ (ConnectionPool.release_connection s conn resp).concurrent ∧
    ((conn ∈ (ConnectionPool.release_connection s conn resp).available) ↔
      can_reuse_connection resp = true) ∧
    (can_reuse_connection resp = true ↔
      ∃ r, resp = some r ∧ r.headersComplete = true ∧
        ∃ p ∈ r.headerList,
          lowerStr p.1 = "connection" ∧ lowerStr p.2 = "keep-alive") := by
  have e1 : lowerStr "connection" = "connection" := by decide
  have e2 : lowerStr "keep-alive" = "keep-alive" := by decide
  refine ⟨?_, ?_, ?_⟩
  · unfold ConnectionPool.release_connection
    by_cases h : can_reuse_connection resp = true
    · rw [if_pos h]
      exact not_mem_setDiscard conn s.concurrent
    · rw [if_neg h]
      exact not_mem_setDiscard conn s.concurrent
  · unfold ConnectionPool.release_connection
    by_cases h : can_reuse_connection resp = true
    · rw [if_pos h]
      exact iff_of_true (self_mem_setAdd conn s.available) h
    · rw [if_neg h]
      exact iff_of_false hconn h
  · cases resp with
    | none => simp [can_reuse_connection]
    | some r =>
      by_cases hc : r.headersComplete = true
      · have hcan : can_reuse_connection (some r) =
            (!r.headerList.isEmpty &&
              headersHas r.headerList "connection" "keep-alive") := by
          simp [can_reuse_connection, HttpResponseM.headersOpt, hc]
        rw [hcan]
        simp only [Bool.and_eq_true, Bool.not_eq_true', List.isEmpty_eq_false,
          headersHas, List.any_eq_true, decide_eq_true_eq, e1, e2]
        constructor
        · rintro ⟨hne, p, hp, h1, h2⟩
          exact ⟨r, rfl, hc, p, hp, h1, h2⟩
        · rintro ⟨r1, heq, hcomp, p, hp, h1, h2⟩
          injection heq with heq1
          subst heq1
          exact ⟨List.ne_nil_of_mem hp, p, hp, h1, h2⟩
      · have hcan : can_reuse_connection (some r) = false := by
          simp [can_reuse_connection, HttpResponseM.headersOpt, hc]
        rw [hcan]
        simp only [Bool.false_eq_true, false_iff]
        rintro ⟨r1, heq, hcomp, p, hp, h1, h2⟩
        injection heq with heq1
        subst heq1
        exact hc hcomp

theorem release_connection_reuse_policy_witness :
    (2 ∉ ([] : List Nat)) ∧
    (2 ∉ (ConnectionPool.release_connection ⟨[], [2]⟩ 2
        (some ⟨true, [("Connection", "Keep-Alive")]⟩)).concurrent ∧
     ((2 ∈ (ConnectionPool.release_connection ⟨[], [2]⟩ 2
        (some ⟨true, [("Connection", "Keep-Alive")]⟩)).available) ↔
       can_reuse_connection
         (some ⟨true, [("Connection", "Keep-Alive")]⟩) = true) ∧
     (can_reuse_connection
         (some ⟨true, [("Connection", "Keep-Alive")]⟩) = true ↔
       ∃ r, (some ⟨true, [("Connection", "Keep-Alive")]⟩ :
            Option HttpResponseM) = some r ∧ r.headersComplete = true ∧
         ∃ p ∈ r.headerList,
           lowerStr p.1 = "connection" ∧ lowerStr p.2 = "keep-alive")) :=
  ⟨by decide,
   release_connection_reuse_policy ⟨[], [2]⟩ 2
     (some ⟨true, [("Connection", "Keep-Alive")]⟩) (by decide)⟩

/-- Claim C3: get_or_create_connection pops from the available set until a
connection whose socket is open is found; the stale connections whose
transports are closed (outside the lock) are exactly the popped closed-
socket ones, each exactly once; when the available set holds no healthy
connection, the newly built connection is returned with the
connection_lost observer bound; and the returned connection is a member of
the concurrent set of the resulting pool. -/
theorem get_or_create_connection_correct (env : Nat → ConnInfo)
    (fresh : Nat) (s : PoolState) (hnd : s.available.Nodup) :
    (ConnectionPool.get_or_create_connection env fresh s).staleClosed =
      (s.available.takeWhile (fun c => is_socket_closed (env c))).filter
        (fun c => (env c).hasSock) ∧
    (ConnectionPool.get_or_create_connection env fresh s).staleClosed.Nodup ∧
    (∀ c ∈ (ConnectionPool.get_or_create_connection env fresh s).staleClosed,
        is_socket_closed (env c) = true) ∧
    (∀ h, (s.available.dropWhile
          (fun c => is_socket_closed (env c))).head? = some h →
        (ConnectionPool.get_or_create_connection env fresh s).conn = h ∧
        (ConnectionPool.get_or_create_connection env fresh s).isNew = false ∧
        is_socket_closed (env h) = false) ∧
    ((s.available.dropWhile
          (fun c => is_socket_closed (env c))).head? = none →
        (ConnectionPool.get_or_create_connection env fresh s).conn = fresh ∧
        (ConnectionPool.get_or_create_connection env fresh s).isNew = true ∧
        (ConnectionPool.get_or_create_connection env fresh
            s).lostObserverBound = true) ∧
    (ConnectionPool.get_or_create_connection env fresh s).conn ∈
      (ConnectionPool.get_or_create_connection env fresh s).pool.concurrent := by
  unfold ConnectionPool.get_or_create_connection
  rw [popAvailable_eq]
  cases hdw : s.available.dropWhile (fun c => is_socket_closed (env c)) with
  | nil =>
    refine ⟨rfl, ?_, ?_, ?_, ?_, ?_⟩
    · exact List.Nodup.filter _ ((List.takeWhile_sublist _).nodup hnd)
    · intro c hc
      have hmem : c ∈ List.takeWhile (fun x => is_socket_closed (env x))
          s.available := List.mem_of_mem_filter hc
      have hres := List.mem_takeWhile_imp hmem
      simpa using hres
    · intro x hx
      simp at hx
    · intro _
      exact ⟨rfl, rfl, rfl⟩
    · exact self_mem_setAdd fresh s.concurrent
  | cons h t =>
    refine ⟨rfl, ?_, ?_, ?_, ?_, ?_⟩
    · exact List.Nodup.filter _ ((List.takeWhile_sublist _).nodup hnd)
    · intro c hc
      have hmem : c ∈ List.takeWhile (fun x => is_socket_closed (env x))
          s.available := List.mem_of_mem_filter hc
      have hres := List.mem_takeWhile_imp hmem
      simpa using hres
    · intro x hx
      simp only [List.head?_cons, Option.some.injEq] at hx
      subst hx
      refine ⟨rfl, rfl, ?_⟩
      exact head_dropWhile_false _ s.available h (by rw [hdw]; rfl)
    · intro hnone
      simp at hnone
    · exact self_mem_setAdd h s.concurrent

theorem get_or_create_connection_correct_witness :
    List.Nodup [1, 2] ∧
    ((ConnectionPool.get_or_create_connection
        (fun n => if n = 1 then ⟨true, true⟩ else ⟨true, false⟩) 9
        ⟨[1, 2], [7]⟩).staleClosed =
      (List.takeWhile
          (fun c => is_socket_closed
            (if c = 1 then ⟨true, true⟩ else ⟨true, false⟩)) [1, 2]).filter
        (fun c => ((if c = 1 then (⟨true, true⟩ : ConnInfo)
            else ⟨true, false⟩)).hasSock) ∧
     (ConnectionPool.get_or_create_connection
        (fun n => if n = 1 then ⟨true, true⟩ else ⟨true, false⟩) 9
        ⟨[1, 2], [7]⟩).staleClosed.Nodup ∧
     (∀ c ∈ (ConnectionPool.get_or_create_connection
        (fun n => if n = 1 then ⟨true, true⟩ else ⟨true, false⟩) 9
        ⟨[1, 2], [7]⟩).staleClosed,
        is_socket_closed
          (if c = 1 then ⟨true, true⟩ else ⟨true, false⟩) = true) ∧
     (∀ h, (List.dropWhile
          (fun c => is_socket_closed
            (if c = 1 then ⟨true, true⟩ else ⟨true, false⟩))
          [1, 2]).head? = some h →
        (ConnectionPool.get_or_create_connection
          (fun n => if n = 1 then ⟨true, true⟩ else ⟨true, false⟩) 9
          ⟨[1, 2], [7]⟩).conn = h ∧
        (ConnectionPool.get_or_create_connection
          (fun n => if n = 1 then ⟨true, true⟩ else ⟨true, false⟩) 9
          ⟨[1, 2], [7]⟩).isNew = false ∧
        is_socket_closed
          (if h = 1 then ⟨true, true⟩ else ⟨true, false⟩) = false) ∧
     ((List.dropWhile
          (fun c => is_socket_closed
            (if c = 1 then ⟨true, true⟩ else ⟨true, false⟩))
          [1, 2]).head? = none →
        (ConnectionPool.get_or_create_connection
          (fun n => if n = 1 then ⟨true, true⟩ else ⟨true, false⟩) 9
          ⟨[1, 2], [7]⟩).conn = 9 ∧
        (ConnectionPool.get_or_create_connection
          (fun n => if n = 1 then ⟨true, true⟩ else ⟨true, false⟩) 9
          ⟨[1, 2], [7]⟩).isNew = true ∧
        (ConnectionPool.get_or_create_connection
          (fun n => if n = 1 then ⟨true, true⟩ else ⟨true, false⟩) 9
          ⟨[1, 2], [7]⟩).lostObserverBound = true) ∧
     (ConnectionPool.get_or_create_connection
        (fun n => if n = 1 then ⟨true, true⟩ else ⟨true, false⟩) 9
        ⟨[1, 2], [7]⟩).conn ∈
      (ConnectionPool.get_or_create_connection
        (fun n => if n = 1 then ⟨true, true⟩ else ⟨true, false⟩) 9
        ⟨[1, 2], [7]⟩).pool.concurrent) :=
  ⟨by decide,
   get_or_create_connection_correct
     (fun n => if n = 1 then ⟨true, true⟩ else ⟨true, false⟩) 9
     ⟨[1, 2], [7]⟩ (by decide)⟩

/-- Claim C4 (refuted by the code): Client.reconnect_time_lag never
returns the base lag times the logarithm term; for every attempt number
the multiplication at clients.py line 473 applies the bound method
self.reconnect_time_lag (not the numeric reconnecting_gap attribute of
line 267) to a float, so the call raises TypeError for every value of the
already-evaluated factor math.log(lag) + 1. -/
theorem reconnect_time_lag_type_error :
    (∀ x : ℚ, Client.reconnect_time_lag x =
        Except.error PyExc.typeError) ∧
    Client.attr "reconnect_time_lag" =
      PyVal.boundMethod "reconnect_time_lag" ∧
    Client.attr "reconnecting_gap" = PyVal.num 2 := by
  refine ⟨fun x => ?_, rfl, rfl⟩
  rfl

/-- Claim C5 (refuted by the code): when a connection is lost with a
socket timeout or a socket error, ConnectionPool._try_reconnect cannot
inspect the consumer or reconnect: line 147 reads the unbound name
connection, so the handler raises NameError on every socket failure. -/
theorem try_reconnect_name_error :
    ConnectionPool.tryReconnect PyExc.socketTimeout =
      Except.error PyExc.nameError ∧
    ConnectionPool.tryReconnect PyExc.socketError =
      Except.error PyExc.nameError ∧
    resolveName tryReconnectLocals "connection" =
      Except.error PyExc.nameError ∧
    ("connection" ∉ tryReconnectLocals ∧
      "connection" ∉ clientsModuleGlobals) := by
  refine ⟨rfl, rfl, rfl, by decide⟩

/-- Claim C6: HttpResponse.data_received raises ProtocolError exactly when
the parser consumed fewer bytes than the length of the fed chunk; a fully
consumed chunk raises nothing, and a ProtocolError failure never enters
the reconnect path (the _try_reconnect guard only passes socket
failures). -/
theorem data_received_protocol_error_iff (consumed chunkLen : Nat)
    (hc hd : Bool) (hle : consumed ≤ chunkLen) :
    ((HttpResponse.data_received consumed chunkLen hc hd =
        Except.error PyExc.protocolError) ↔ consumed < chunkLen) ∧
    (consumed = chunkLen →
      HttpResponse.data_received consumed chunkLen hc hd =
        Except.ok (hc && !hd)) ∧
    is_failure_socket PyExc.protocolError = false ∧
    ConnectionPool.tryReconnect PyExc.protocolError = Except.ok () := by
  refine ⟨?_, ?_, rfl, rfl⟩
  · unfold HttpResponse.data_received
    by_cases h : consumed = chunkLen
    · rw [if_pos h]
      constructor
      · intro he
        exact absurd he (by simp)
      · intro hlt
        omega
    · rw [if_neg h]
      constructor
      · intro _
        omega
      · intro _
        rfl
  · intro h
    unfold HttpResponse.data_received
    rw [if_pos h]

theorem data_received_protocol_error_iff_witness :
    3 ≤ 5 ∧
    (((HttpResponse.data_received 3 5 true false =
        Except.error PyExc.protocolError) ↔ 3 < 5) ∧
     ((3 : Nat) = 5 →
       HttpResponse.data_received 3 5 true false =
         Except.ok (true && !false)) ∧
     is_failure_socket PyExc.protocolError = false ∧
     ConnectionPool.tryReconnect PyExc.protocolError = Except.ok ()) :=
  ⟨by decide, data_received_protocol_error_iff 3 5 true false (by decide)⟩

theorem headerGet_setHeader_of_eq (hs : List (String × String))
    (k1 v k2 : String) (h : lowerStr k1 = lowerStr k2) :
    headerGet (setHeader hs k1 v) k2 = some v := by
  induction hs with
  | nil => simp [setHeader, headerGet, List.find?, h]
  | cons q t ih =>
    by_cases hq : lowerStr q.1 = lowerStr k1
    · simpa [setHeader, List.filter_cons, hq] using ih
    · have hq2 : lowerStr q.1 ≠ lowerStr k2 := h ▸ hq
      simpa [setHeader, headerGet, List.filter_cons, List.find?_cons, hq,
        hq2] using ih

theorem headerGet_setHeader_of_ne (hs : List (String × String))
    (k1 v k2 : String) (h : lowerStr k1 ≠ lowerStr k2) :
    headerGet (setHeader hs k1 v) k2 = headerGet hs k2 := by
  induction hs with
  | nil => simp [setHeader, headerGet, List.find?, h]
  | cons q t ih =>
    by_cases hq : lowerStr q.1 = lowerStr k1
    · have hq2 : lowerStr q.1 ≠ lowerStr k2 := hq ▸ h
      simp only [setHeader, List.filter_cons] at ih ⊢
      simp only [hq, decide_not, decide_eq_true_eq] at ih ⊢
      rw [if_neg (by simp [hq])]
      rw [ih]
      unfold headerGet
      rw [List.find?_cons_of_neg _ (by simp [hq2])]
    · simp only [setHeader, List.filter_cons] at ih ⊢
      rw [if_pos (by simp [hq])]
      unfold headerGet at ih ⊢
      by_cases hq2 : lowerStr q.1 = lowerStr k2
      · rw [List.cons_append, List.find?_cons_of_pos _ (by simp [hq2]),
          List.find?_cons_of_pos _ (by simp [hq2])]
      · rw [List.cons_append, List.find?_cons_of_neg _ (by simp [hq2]),
          List.find?_cons_of_neg _ (by simp [hq2])]
        exact ih

theorem lastHeaderVal_append_single (l : List (String × String))
    (k1 v k2 : String) (h : lowerStr k1 = lowerStr k2) :
    lastHeaderVal (l ++ [(k1, v)]) k2 = some v := by
  induction l with
  | nil => simp [lastHeaderVal, h]
  | cons q t ih => simp [lastHeaderVal, ih]

theorem lastHeaderVal_setHeader_of_eq (hs : List (String × String))
    (k1 v k2 : String) (h : lowerStr k1 = lowerStr k2) :
    lastHeaderVal (setHeader hs k1 v) k2 = some v :=
  lastHeaderVal_append_single _ k1 v k2 h

theorem lastHeaderVal_setHeader_of_ne (hs : List (String × String))
    (k1 v k2 : String) (h : lowerStr k1 ≠ lowerStr k2) :
    lastHeaderVal (setHeader hs k1 v) k2 = lastHeaderVal hs k2 := by
  induction hs with
  | nil => simp [setHeader, lastHeaderVal, h]
  | cons q t ih =>
    by_cases hq : lowerStr q.1 = lowerStr k1
    · have hq2 : lowerStr q.1 ≠ lowerStr k2 := hq ▸ h
      simp only [setHeader, List.filter_cons] at ih ⊢
      rw [if_neg (by simp [hq])]
      rw [ih]
      conv_rhs => rw [lastHeaderVal]
      cases hrest : lastHeaderVal t k2 <;> simp [hrest, hq2]
    · simp only [setHeader, List.filter_cons] at ih ⊢
      rw [if_pos (by simp [hq])]
      rw [List.cons_append]
      conv_lhs => rw [lastHeaderVal]
      conv_rhs => rw [lastHeaderVal]
      rw [ih]

theorem headerGet_updateHeaders (upd : List (String × String)) :
    ∀ base k, headerGet (updateHeaders base upd) k =
      match lastHeaderVal upd k with
      | some v => some v
      | none => headerGet base k := by
  induction upd with
  | nil => intro base k; simp [updateHeaders, lastHeaderVal]
  | cons p rest ih =>
    intro base k
    have hstep : updateHeaders base (p :: rest) =
        updateHeaders (setHeader base p.1 p.2) rest := rfl
    rw [hstep, ih]
    by_cases h : lowerStr p.1 = lowerStr k
    · cases hrest : lastHeaderVal rest k with
      | some v => simp [lastHeaderVal, hrest]
      | none =>
        simp only [lastHeaderVal, hrest]
        rw [if_pos h]
        exact headerGet_setHeader_of_eq base p.1 p.2 k h
    · cases hrest : lastHeaderVal rest k with
      | some v => simp [lastHeaderVal, hrest]
      | none =>
        simp only [lastHeaderVal, hrest]
        rw [if_neg h]
        exact headerGet_setHeader_of_ne base p.1 p.2 k h

/-- Claim C7: HttpRequest.encode returns the empty byte string for CONNECT
requests; for every other method the body is computed before the request
line (the request line of the encoded output is the first line of the
post-encode-body request state), and whenever the computed body is
non-empty the final headers of the encoded request carry a Content-Length
header equal to the body length. -/
theorem encode_connect_empty_and_content_length (r : HttpRequestM)
    (b : String) (hm : r.method ≠ "CONNECT")
    (hb : r.encode_body.1 = some b) (hne : b ≠ "") :
    (HttpRequestM.encode { r with method := "CONNECT" }).wire = "" ∧
    headerGet (HttpRequestM.encode r).finalHeaders "content-length" =
      some (toString b.length) ∧
    (HttpRequestM.encode r).requestLine = r.encode_body.2.first_line := by
  refine ⟨?_, ?_⟩
  · unfold HttpRequestM.encode
    rw [if_pos rfl]
  · unfold HttpRequestM.encode
    rw [if_neg hm]
    simp only [hb]
    rw [if_pos hne]
    by_cases hw : r.encode_body.2.wait_continue = true
    · rw [if_pos hw]
      by_cases hu : r.encode_body.2.unredirected_headers = []
      · rw [if_pos hu]
        constructor
        · rw [headerGet_setHeader_of_ne _ _ _ _ (by decide)]
          exact headerGet_setHeader_of_eq _ _ _ _ rfl
        · rfl
      · rw [if_neg hu]
        constructor
        · rw [headerGet_updateHeaders]
          rw [lastHeaderVal_setHeader_of_ne _ _ _ _ (by decide)]
          rw [lastHeaderVal_setHeader_of_eq _ _ _ _ rfl]
        · rfl
    · rw [if_neg hw]
      by_cases hu : r.encode_body.2.unredirected_headers = []
      · rw [if_pos hu]
        constructor
        · exact headerGet_setHeader_of_eq _ _ _ _ rfl
        · rfl
      · rw [if_neg hu]
        constructor
        · rw [headerGet_updateHeaders]
          rw [lastHeaderVal_setHeader_of_eq _ _ _ _ rfl]
        · rfl

theorem encode_connect_empty_and_content_length_witness :
    (witnessRequest.method ≠ "CONNECT" ∧
     witnessRequest.encode_body.1 = some "hello" ∧ "hello" ≠ "") ∧
    ((HttpRequestM.encode
        { witnessRequest with method := "CONNECT" }).wire = "" ∧
     headerGet (HttpRequestM.encode witnessRequest).finalHeaders
        "content-length" = some (toString "hello".length) ∧
     (HttpRequestM.encode witnessRequest).requestLine =
        witnessRequest.encode_body.2.first_line) :=
  ⟨⟨by decide, by decide, by decide⟩,
   encode_connect_empty_and_content_length witnessRequest "hello"
     (by decide) (by decide) (by decide)⟩

/-- Claim C8 (partially refuted by the code): after Client.close the
closed flag is true and stays true under further close and response
calls, but a subsequent response call still dispatches a request to the
remote server: response and _response acquire a connection and start the
request without consulting the _closed flag, contradicting the
documentation of the closed property. -/
theorem closed_client_still_dispatches (env : Nat → ConnInfo)
    (fresh key : Nat) (s : ClientState) :
    ((Client.close s).1).closed = true ∧
    (Client.response env fresh key (Client.close s).1).2 = true ∧
    ((Client.response env fresh key (Client.close s).1).1).closed = true ∧
    ((Client.close (Client.close s).1).1).closed = true := by
  unfold Client.close Client.response Client.get_connection
  by_cases h : s.closed <;> simp [h]

/-- Claim C9 counterexample: for a CONNECT request proxied through
ProxyTunnel whose upstream connect attempt fails before the tunnel is
established, the downstream caller does not receive the completed
gateway-failure response the claim promises: ProxyTunnel.setup binds no
errback, so the downstream response stays pending. -/
theorem tunnel_failure_counterexample :
    ¬ receivedGatewayFailure
        (upstreamConnectFailed "https://example.test:443"
          (ProxyTunnel.setup initialProxyState)) := by decide

/-- Claim C9 amended: ProxyTunnel.setup does not register the error
errback, so an upstream connect failure before tunnel establishment
leaves the downstream state of a CONNECT request unchanged (no status, no
queued page, not done); the completed 504 gateway-failure page is
delivered only for non-CONNECT requests, whose ProxyResponse.setup binds
the errback. -/
theorem tunnel_failure_amended :
    (ProxyTunnel.setup initialProxyState).errbackBound = false ∧
    (∀ uri, upstreamConnectFailed uri (ProxyTunnel.setup initialProxyState) =
        ProxyTunnel.setup initialProxyState) ∧
    (∀ uri, receivedGatewayFailure
        (upstreamConnectFailed uri (ProxyResponse.setup initialProxyState))) := by
  refine ⟨rfl, fun uri => rfl, fun uri => ?_⟩
  unfold receivedGatewayFailure upstreamConnectFailed ProxyResponse.setup
    ProxyResponse.error initialProxyState
  simp

/-- Claim C10: Client.close is idempotent: a second close leaves the
client state unchanged (the pools are not closed again and the finish
event does not fire again) and returns the same finish event as the first
call. -/
theorem client_close_idempotent (s : ClientState) :
    (Client.close (Client.close s).1).1 = (Client.close s).1 ∧
    (Client.close (Client.close s).1).2 = (Client.close s).2 := by
  unfold Client.close
  by_cases h : s.closed <;> simp [h]
